import Mathlib

/-!
Verification of the wsm load-test suite core: outcome classification,
metrics snapshots, the staged interpolation rule and the adaptive
rate controller, shallowly embedded from the Go sources.

Conventions of the embedding:
- Go int64 values (request counters, RPS targets) are modelled as Int;
  the realistic magnitudes never approach the 64-bit bound, and no
  wrap-around is exercised by any code path modelled here.
- Go time.Time and time.Duration are modelled as Int nanosecond counts,
  matching their arithmetic (Sub, comparison) exactly.
- Go float64 intermediates are modelled as Rat.  Every float expression
  the embedded code computes is a ratio of moderate integers, far inside
  the range where float64 arithmetic is exact or its rounding is
  irrelevant to the stated properties (signs, truncation bounds and the
  concrete small-number scenarios).
- The Go conversion int64(f) truncates toward zero; truncQ below is that
  conversion on Rat.
-/

/-- Go int64 truncation of a float value: rounds toward zero. -/
def truncQ (q : ℚ) : ℤ :=
  if q < 0 then -(Int.floor (-q)) else Int.floor q

/-! ## Outcome classification (Execution Units)

From src/medusa/main.go executeTask (identical in src/unnamed/part_000):
  success := err == nil && resp != nil && resp.StatusCode == http.StatusOK
and from src/stress_testing/main.go ExecuteRequest:
  success := resp.StatusCode >= 200 && resp.StatusCode < 300
-/

/-- Success classification of src/medusa/main.go executeTask (and the
identical executeTask in src/unnamed/part_000): the transport returned
without error, a response object exists, and the status code is exactly
http.StatusOK, that is 200. -/
def executeTaskSuccess (errNil respNonNil : Bool) (statusCode : ℤ) : Bool :=
  errNil && respNonNil && (statusCode == 200)

/-- Success classification of src/stress_testing/main.go ExecuteRequest:
the status code lies in the 2xx range. -/
def stressExecuteSuccess (statusCode : ℤ) : Bool :=
  decide (200 ≤ statusCode) && decide (statusCode < 300)

/-! ## Saleor GraphQL outcome recording

From the Go program embedded in src/saleor/config_30min.json:
executeGraphQLTask builds an ErrorResponse when the HTTP status is at
least 400 or when the parsed GraphQL body carries a non-empty Errors
list, and then passes it to Metrics.AddResult only when error logging is
enabled and a fresh random draw falls within ErrorSampleRate; otherwise
it passes nil.  AddResult counts a success exactly when the status code
is in the 2xx range and the ErrorResponse argument is nil.
-/

/-- The error-report value built by executeGraphQLTask (fields that the
classification path reads). -/
structure ErrResp where
  statusCode : ℤ
  graphqlErrs : List String
deriving DecidableEq

/-- The error-logging knobs of the saleor test configuration. -/
structure SaleorTestConfig where
  logErrors : Bool
  errorSampleRate : ℚ

/-- Mirror of the ErrorResponse construction in executeGraphQLTask: an
HTTP status of at least 400 yields an error report, otherwise a
non-empty GraphQL error list yields one, otherwise none is built. -/
def buildErrResp (statusCode : ℤ) (graphqlErrs : List String) : Option ErrResp :=
  if 400 ≤ statusCode then
    some { statusCode := statusCode, graphqlErrs := [] }
  else if graphqlErrs ≠ [] then
    some { statusCode := statusCode, graphqlErrs := graphqlErrs }
  else
    none

/-- The success test inside Metrics.AddResult of the saleor program:
statusCode in the 2xx range and no error report supplied. -/
def saleorAddResultSuccess (statusCode : ℤ) (errResp : Option ErrResp) : Bool :=
  decide (200 ≤ statusCode) && decide (statusCode < 300) && errResp.isNone

/-- End-to-end recorded classification of one completed GraphQL request:
executeGraphQLTask builds the error report, forwards it to AddResult only
when LogErrors is set and the random draw sampleDraw is at most
ErrorSampleRate, and AddResult classifies.  Returns the success flag the
metrics record. -/
def saleorRecordedSuccess (cfg : SaleorTestConfig) (sampleDraw : ℚ)
    (statusCode : ℤ) (graphqlErrs : List String) : Bool :=
  let errResp := buildErrResp statusCode graphqlErrs
  if errResp.isSome && cfg.logErrors && decide (sampleDraw ≤ cfg.errorSampleRate) then
    saleorAddResultSuccess statusCode errResp
  else
    saleorAddResultSuccess statusCode none

/-! ## Metrics snapshot (src/medusa/main.go Metrics.CalculateStats) -/

/-- The fields of the medusa Metrics accumulator that CalculateStats
reads.  Times are nanoseconds; requestDurations is the probabilistic
latency sample buffer. -/
structure MedusaMetrics where
  startTime : ℤ
  totalRequests : ℤ
  successfulRequests : ℤ
  failedRequests : ℤ
  requestDurations : List ℤ

/-- The max helper of src/medusa/main.go. -/
def maxI64 (a b : ℤ) : ℤ :=
  if a > b then a else b

/-- Ordered insertion, the building block of the sorted copy. -/
def insertDur (x : ℤ) : List ℤ → List ℤ
  | [] => [x]
  | y :: ys => if x ≤ y then x :: y :: ys else y :: insertDur x ys

/-- Sorted copy of the latency sample buffer.  The source sorts with an
in-place Lomuto quicksort (sortDurations, quickSortDurations,
partitionDurations); since Int has a total order, every comparison sort
produces the same sorted list, which is the only thing CalculateStats
reads, so the embedding uses a structurally simple sort. -/
def sortDurations (l : List ℤ) : List ℤ :=
  l.foldr insertDur []

/-- percentileDuration of src/medusa/main.go: nearest-rank indexing of
the sorted buffer at index floor(percentile * n), clamped to n - 1;
returns 0 for an empty buffer. -/
def percentileDuration (sorted : List ℤ) (percentile : ℚ) : ℤ :=
  if sorted.length = 0 then 0
  else
    let index : ℤ := Int.floor (percentile * (sorted.length : ℚ))
    let index := if index ≥ (sorted.length : ℤ) then (sorted.length : ℤ) - 1 else index
    sorted.getD index.toNat 0

/-- The snapshot value CalculateStats assembles (the fields with
numeric content; the string formatting of the Go map is not modelled). -/
structure MedusaStats where
  totalRequests : ℤ
  successfulRequests : ℤ
  failedRequests : ℤ
  testDuration : ℤ
  actualRPS : ℚ
  successRate : ℚ
  p50 : ℤ
  p90 : ℤ
  p95 : ℤ
  p99 : ℤ
deriving DecidableEq

/-- Metrics.CalculateStats of src/medusa/main.go as a function of the
accumulator state and the wall-clock instant of the call (the source
reads time.Since(m.StartTime)).  Percentiles default to zero when the
sample buffer is empty; the success rate divides by max(total, 1). -/
def calculateStats (m : MedusaMetrics) (now : ℤ) : MedusaStats :=
  let testDuration := now - m.startTime
  let actualRPS : ℚ := (m.totalRequests : ℚ) / ((testDuration : ℚ) / 1000000000)
  let pcts :=
    if m.requestDurations.length > 0 then
      let durations := sortDurations m.requestDurations
      (percentileDuration durations (1/2), percentileDuration durations (9/10),
       percentileDuration durations (95/100), percentileDuration durations (99/100))
    else (0, 0, 0, 0)
  { totalRequests := m.totalRequests
    successfulRequests := m.successfulRequests
    failedRequests := m.failedRequests
    testDuration := testDuration
    actualRPS := actualRPS
    successRate := (m.successfulRequests : ℚ) / ((maxI64 m.totalRequests 1 : ℤ) : ℚ) * 100
    p50 := pcts.1
    p90 := pcts.2.1
    p95 := pcts.2.2.1
    p99 := pcts.2.2.2 }

/-! ## Stress-test rate views (src/stress_testing/main.go Metrics) -/

/-- The counter fields of the stress_testing Metrics. -/
structure StressMetrics where
  totalRequests : ℤ
  successfulRequests : ℤ
  failedRequests : ℤ

/-- GetSuccessRate of src/stress_testing/main.go: 100 percent when no
request completed yet, otherwise successes over total. -/
def getSuccessRate (m : StressMetrics) : ℚ :=
  if m.totalRequests = 0 then 100
  else (m.successfulRequests : ℚ) / (m.totalRequests : ℚ) * 100

/-- GetErrorRate of src/stress_testing/main.go: 0 percent when no
request completed yet, otherwise failures over total. -/
def getErrorRate (m : StressMetrics) : ℚ :=
  if m.totalRequests = 0 then 0
  else (m.failedRequests : ℚ) / (m.totalRequests : ℚ) * 100

/-! ## Adaptive rate controller (src/medusa/main.go generateLoad)

The adaptive branch of generateLoad keeps currentTargetRPS,
lastAdaptiveChange and the windowed counters of the Metrics
(recentSuccessfulRequests, recentFailedRequests, lastSamplingTime), and
on every millisecond tick runs: if the sampling window elapsed, compute
the recent error rate; if additionally the stabilization window elapsed
since the last change, adjust the rate (multiplicative step truncated to
int64, clamped below at MinimumRPS on decrease and above at MaximumRPS
on increase) and stamp the change time; in either case reset the
windowed counters.
-/

/-- The AdaptiveConfig block of the medusa configuration.  Percentages
and the threshold are float64 in the source, modelled as Rat; windows
are time.Duration nanoseconds. -/
structure AdaptiveConfig where
  initialRPS : ℤ
  errorThresholdPercentage : ℚ
  rpsIncreasePercentage : ℚ
  rpsDecreasePercentage : ℚ
  minimumRPS : ℤ
  maximumRPS : ℤ
  samplingWindow : ℤ
  stabilizationWindow : ℤ

/-- Metrics.GetRecentErrorRate of src/medusa/main.go: failures over the
windowed total as a percentage, 0 when the window saw no request. -/
def getRecentErrorRate (recentSuccess recentFailed : ℤ) : ℚ :=
  if recentSuccess + recentFailed = 0 then 0
  else (recentFailed : ℚ) / ((recentSuccess + recentFailed : ℤ) : ℚ) * 100

/-- The rate-adjustment block of generateLoad (lines 419-443 of
src/medusa/main.go): decrease by int64(rate * DecreasePercentage / 100)
floored at MinimumRPS when the recent error rate exceeds the threshold,
otherwise increase by int64(rate * IncreasePercentage / 100) capped at
MaximumRPS. -/
def adjustRPS (cfg : AdaptiveConfig) (currentTargetRPS : ℤ) (recentErrorRate : ℚ) : ℤ :=
  if recentErrorRate > cfg.errorThresholdPercentage then
    let decreaseAmount : ℚ := (currentTargetRPS : ℚ) * (cfg.rpsDecreasePercentage / 100)
    let r := currentTargetRPS - truncQ decreaseAmount
    if r < cfg.minimumRPS then cfg.minimumRPS else r
  else
    let increaseAmount : ℚ := (currentTargetRPS : ℚ) * (cfg.rpsIncreasePercentage / 100)
    let r := currentTargetRPS + truncQ increaseAmount
    if r > cfg.maximumRPS then cfg.maximumRPS else r

/-- The mutable state the adaptive loop owns: the current target rate,
the time of the last rate change, and the windowed counter block of the
Metrics together with its lastSamplingTime stamp. -/
structure AdaptiveState where
  currentTargetRPS : ℤ
  lastAdaptiveChange : ℤ
  lastSamplingTime : ℤ
  recentSuccessfulRequests : ℤ
  recentFailedRequests : ℤ
deriving DecidableEq

/-- The state right after generateLoad initializes: the rate starts at
InitialRPS, ResetRecentCounters has stamped lastSamplingTime, and
lastAdaptiveChange is set to the start instant t0. -/
def initAdaptiveState (cfg : AdaptiveConfig) (t0 : ℤ) : AdaptiveState :=
  { currentTargetRPS := cfg.initialRPS
    lastAdaptiveChange := t0
    lastSamplingTime := t0
    recentSuccessfulRequests := 0
    recentFailedRequests := 0 }

/-- One adaptive block of the ticker loop at instant now.  Returns the
new state and whether a rate adjustment happened on this tick.  Mirrors
lines 406-451 of src/medusa/main.go: the sampling-window guard, the
stabilization-window guard, adjustRPS, the lastAdaptiveChange stamp and
the unconditional ResetRecentCounters at window end. -/
def adaptiveTick (cfg : AdaptiveConfig) (s : AdaptiveState) (now : ℤ) :
    AdaptiveState × Bool :=
  if now - s.lastSamplingTime ≥ cfg.samplingWindow then
    let recentErrorRate :=
      getRecentErrorRate s.recentSuccessfulRequests s.recentFailedRequests
    if now - s.lastAdaptiveChange ≥ cfg.stabilizationWindow then
      ({ currentTargetRPS := adjustRPS cfg s.currentTargetRPS recentErrorRate
         lastAdaptiveChange := now
         lastSamplingTime := now
         recentSuccessfulRequests := 0
         recentFailedRequests := 0 }, true)
    else
      ({ s with lastSamplingTime := now
                recentSuccessfulRequests := 0
                recentFailedRequests := 0 }, false)
  else (s, false)

/-- Events the adaptive state observes: a completed request recorded by
Metrics.AddResult (touching only the windowed counters visible here) or
a ticker firing at a given instant. -/
inductive LoadEvent where
  | record (success : Bool)
  | tick (now : ℤ)

/-- The windowed-counter half of Metrics.AddResult. -/
def applyRecord (s : AdaptiveState) (success : Bool) : AdaptiveState :=
  if success then
    { s with recentSuccessfulRequests := s.recentSuccessfulRequests + 1 }
  else
    { s with recentFailedRequests := s.recentFailedRequests + 1 }

/-- Run the adaptive loop over a sequence of events. -/
def runEvents (cfg : AdaptiveConfig) : AdaptiveState → List LoadEvent → AdaptiveState
  | s, [] => s
  | s, LoadEvent.record b :: es => runEvents cfg (applyRecord s b) es
  | s, LoadEvent.tick now :: es => runEvents cfg (adaptiveTick cfg s now).1 es

/-- The instants at which the run performed a rate adjustment, in
order. -/
def adjustmentTimes (cfg : AdaptiveConfig) : AdaptiveState → List LoadEvent → List ℤ
  | _, [] => []
  | s, LoadEvent.record b :: es => adjustmentTimes cfg (applyRecord s b) es
  | s, LoadEvent.tick now :: es =>
    let r := adaptiveTick cfg s now
    if r.2 then now :: adjustmentTimes cfg r.1 es
    else adjustmentTimes cfg r.1 es

/-! ## Staged rate controller (src/medusa/main.go generateLoad, staged
branch; the same logic appears in src/unnamed/part_000 and in the
program embedded in src/saleor/config_30min.json) -/

/-- A configured ramp stage. -/
structure Stage where
  duration : ℤ
  targetRPS : ℤ
  description : String

/-- The linear-interpolation expression of the staged branch:
startRPS + int64(float64(targetRPS - startRPS) * progress) with
progress = elapsed / duration.  No clamping of progress appears in the
source. -/
def interpolateRPS (startRPS targetRPS : ℤ) (elapsed duration : ℤ) : ℤ :=
  let progress : ℚ := (elapsed : ℚ) / (duration : ℚ)
  startRPS + truncQ (((targetRPS - startRPS : ℤ) : ℚ) * progress)

/-- The staged-branch state: start instant of the current stage, its
index, the rate at the start of the stage and the current target. -/
structure StagedState where
  stageStart : ℤ
  currentStage : ℕ
  startRPS : ℤ
  currentTargetRPS : ℤ
deriving DecidableEq

/-- One staged block of the ticker loop at instant now (lines 453-480 of
src/medusa/main.go).  Returns none when the run ends because the last
stage completed.  On a stage boundary the source advances the stage and
resets stageStart but interpolates the new stage with the elapsed value
measured from the previous stage start. -/
def stagedTick (stages : List Stage) (s : StagedState) (now : ℤ) :
    Option StagedState :=
  if s.currentStage < stages.length then
    let stage := stages.getD s.currentStage ⟨0, 0, ""⟩
    let elapsed := now - s.stageStart
    if elapsed ≥ stage.duration then
      let s1 : StagedState :=
        { s with stageStart := now, currentStage := s.currentStage + 1 }
      if s1.currentStage < stages.length then
        let s2 := { s1 with startRPS := s.currentTargetRPS }
        let stage2 := stages.getD s2.currentStage ⟨0, 0, ""⟩
        some { s2 with currentTargetRPS :=
          interpolateRPS s2.startRPS stage2.targetRPS elapsed stage2.duration }
      else none
    else
      some { s with currentTargetRPS :=
        interpolateRPS s.startRPS stage.targetRPS elapsed stage.duration }
  else some s

/-! ## Concrete scenario inputs used by witnesses and counterexamples -/

/-- The shipped default adaptive configuration of createDefaultConfig in
src/medusa/main.go: initial 10, threshold 2 percent, +25 / -15 percent,
range [5, 500], windows 5 s and 15 s. -/
def cfgAdaptiveDefault : AdaptiveConfig :=
  ⟨10, 2, 25, 15, 5, 500, 5000000000, 15000000000⟩

/-- A loadable configuration whose InitialRPS lies above MaximumRPS;
nothing in main validates against this. -/
def cfgOutOfRangeInit : AdaptiveConfig :=
  ⟨1000, 2, 25, 15, 5, 500, 5000000000, 15000000000⟩

/-- The configuration of the spec scenario (initial 10, threshold 2,
+25 / -15) with the minimum rate left as a parameter. -/
def cfgScenarioDec (minR : ℤ) : AdaptiveConfig :=
  ⟨10, 2, 25, 15, minR, 500, 5000000000, 15000000000⟩

/-- The scenario configuration with minimum 1, used to exhibit the
controller stuck above its minimum rate. -/
def cfgStuckLow : AdaptiveConfig :=
  ⟨10, 2, 25, 15, 1, 500, 5000000000, 15000000000⟩

/-- One failed request in the window, then a tick 20 s in, past both the
sampling and the stabilization windows: a window with a 100 percent
error rate followed by one adjustment. -/
def failWindowEvents : List LoadEvent :=
  [LoadEvent.record false, LoadEvent.tick 20000000000]

/-- Two stages: 30 s toward 10 RPS, then 10 s toward 100 RPS. -/
def stagesTwo : List Stage :=
  [⟨30000000000, 10, "warm"⟩, ⟨10000000000, 100, "ramp"⟩]

/-- Staged state at the end of the first stage of stagesTwo: the first
stage began at instant 0 and the rate has reached its target 10. -/
def stageZeroEnd : StagedState := ⟨0, 0, 10, 10⟩

/-- A metrics state with 100 completed requests and an empty latency
sample buffer, started at instant 0. -/
def metricsHundred : MedusaMetrics := ⟨0, 100, 90, 10, []⟩

/-- The freshly initialized metrics state: no request recorded yet. -/
def metricsZero : MedusaMetrics := ⟨0, 0, 0, 0, []⟩

/-- The freshly initialized stress-test metrics. -/
def stressZero : StressMetrics := ⟨0, 0, 0⟩

/-! ## Helper lemmas about truncation -/

theorem truncQ_zero : truncQ 0 = 0 := by
  unfold truncQ
  norm_num

theorem truncQ_intCast (d : ℤ) : truncQ (d : ℚ) = d := by
  unfold truncQ
  split
  · rw [← Int.cast_neg, Int.floor_intCast, neg_neg]
  · exact Int.floor_intCast d

theorem truncQ_nonneg {q : ℚ} (h0 : 0 ≤ q) : 0 ≤ truncQ q := by
  unfold truncQ
  rw [if_neg (not_lt.mpr h0)]
  exact Int.le_floor.mpr (by exact_mod_cast h0)

theorem truncQ_eq_zero {q : ℚ} (h0 : 0 ≤ q) (h1 : q < 1) : truncQ q = 0 := by
  unfold truncQ
  rw [if_neg (not_lt.mpr h0)]
  exact Int.floor_eq_zero_iff.mpr ⟨h0, h1⟩

theorem truncQ_bounds_nonneg {x : ℚ} {d : ℤ} (h0 : 0 ≤ x) (h1 : x ≤ (d : ℚ)) :
    0 ≤ truncQ x ∧ truncQ x ≤ d := by
  refine ⟨truncQ_nonneg h0, ?_⟩
  unfold truncQ
  rw [if_neg (not_lt.mpr h0)]
  have h2 := Int.floor_le_floor h1
  rwa [Int.floor_intCast] at h2

theorem truncQ_bounds_nonpos {x : ℚ} {d : ℤ} (h0 : (d : ℚ) ≤ x) (h1 : x ≤ 0) :
    d ≤ truncQ x ∧ truncQ x ≤ 0 := by
  unfold truncQ
  split
  · constructor
    · have hx : -x ≤ ((-d : ℤ) : ℚ) := by push_cast; linarith
      have h2 : Int.floor (-x) ≤ -d := by
        have h3 := Int.floor_le_floor hx
        rwa [Int.floor_intCast] at h3
      omega
    · have hx : (0 : ℚ) ≤ -x := by linarith
      have h2 : (0 : ℤ) ≤ Int.floor (-x) := Int.le_floor.mpr (by push_cast; linarith)
      omega
  · rename_i h
    have hx : x = 0 := le_antisymm h1 (not_lt.mp h)
    subst hx
    rw [Int.floor_zero]
    exact ⟨by exact_mod_cast h0, le_refl 0⟩

/-! ## Helper lemmas about the adaptive controller -/

theorem adjustRPS_mem (cfg : AdaptiveConfig)
    (hmin0 : 0 ≤ cfg.minimumRPS) (hmm : cfg.minimumRPS ≤ cfg.maximumRPS)
    (hinc : 0 ≤ cfg.rpsIncreasePercentage) (hdec : 0 ≤ cfg.rpsDecreasePercentage)
    {cur : ℤ} (h1 : cfg.minimumRPS ≤ cur) (h2 : cur ≤ cfg.maximumRPS) (rate : ℚ) :
    cfg.minimumRPS ≤ adjustRPS cfg cur rate ∧ adjustRPS cfg cur rate ≤ cfg.maximumRPS := by
  have hcur0 : (0 : ℚ) ≤ (cur : ℚ) := by exact_mod_cast le_trans hmin0 h1
  unfold adjustRPS
  dsimp only
  split_ifs with hrate hlo hhi
  · exact ⟨le_refl _, hmm⟩
  · have hda : 0 ≤ (cur : ℚ) * (cfg.rpsDecreasePercentage / 100) :=
      mul_nonneg hcur0 (div_nonneg hdec (by norm_num))
    have ht := truncQ_nonneg hda
    omega
  · exact ⟨hmm, le_refl _⟩
  · have hia : 0 ≤ (cur : ℚ) * (cfg.rpsIncreasePercentage / 100) :=
      mul_nonneg hcur0 (div_nonneg hinc (by norm_num))
    have ht := truncQ_nonneg hia
    omega

theorem adaptiveTick_rate_mem (cfg : AdaptiveConfig)
    (hmin0 : 0 ≤ cfg.minimumRPS) (hmm : cfg.minimumRPS ≤ cfg.maximumRPS)
    (hinc : 0 ≤ cfg.rpsIncreasePercentage) (hdec : 0 ≤ cfg.rpsDecreasePercentage)
    (s : AdaptiveState) (now : ℤ)
    (h1 : cfg.minimumRPS ≤ s.currentTargetRPS) (h2 : s.currentTargetRPS ≤ cfg.maximumRPS) :
    cfg.minimumRPS ≤ (adaptiveTick cfg s now).1.currentTargetRPS ∧
      (adaptiveTick cfg s now).1.currentTargetRPS ≤ cfg.maximumRPS := by
  unfold adaptiveTick
  split_ifs with hs hstab
  · exact adjustRPS_mem cfg hmin0 hmm hinc hdec h1 h2 _
  · exact ⟨h1, h2⟩
  · exact ⟨h1, h2⟩

theorem applyRecord_rate (s : AdaptiveState) (b : Bool) :
    (applyRecord s b).currentTargetRPS = s.currentTargetRPS := by
  unfold applyRecord
  split <;> rfl

theorem applyRecord_lastChange (s : AdaptiveState) (b : Bool) :
    (applyRecord s b).lastAdaptiveChange = s.lastAdaptiveChange := by
  unfold applyRecord
  split <;> rfl

theorem runEvents_rate_mem (cfg : AdaptiveConfig)
    (hmin0 : 0 ≤ cfg.minimumRPS) (hmm : cfg.minimumRPS ≤ cfg.maximumRPS)
    (hinc : 0 ≤ cfg.rpsIncreasePercentage) (hdec : 0 ≤ cfg.rpsDecreasePercentage) :
    ∀ (events : List LoadEvent) (s : AdaptiveState),
      cfg.minimumRPS ≤ s.currentTargetRPS → s.currentTargetRPS ≤ cfg.maximumRPS →
      cfg.minimumRPS ≤ (runEvents cfg s events).currentTargetRPS ∧
        (runEvents cfg s events).currentTargetRPS ≤ cfg.maximumRPS := by
  intro events
  induction events with
  | nil => intro s h1 h2; exact ⟨h1, h2⟩
  | cons e es ih =>
    intro s h1 h2
    cases e with
    | record b =>
      exact ih (applyRecord s b) (by rw [applyRecord_rate]; exact h1)
        (by rw [applyRecord_rate]; exact h2)
    | tick now =>
      have ht := adaptiveTick_rate_mem cfg hmin0 hmm hinc hdec s now h1 h2
      exact ih _ ht.1 ht.2

theorem adjustRPS_noop_decrease (cfg : AdaptiveConfig) (cur : ℤ) (rate : ℚ)
    (hmin : cfg.minimumRPS ≤ cur)
    (h0 : 0 ≤ (cur : ℚ) * (cfg.rpsDecreasePercentage / 100))
    (h1 : (cur : ℚ) * (cfg.rpsDecreasePercentage / 100) < 1)
    (hr : cfg.errorThresholdPercentage < rate) :
    adjustRPS cfg cur rate = cur := by
  unfold adjustRPS
  dsimp only
  rw [if_pos hr, truncQ_eq_zero h0 h1, sub_zero, if_neg (not_lt.mpr hmin)]

theorem adjustRPS_noop_increase (cfg : AdaptiveConfig) (cur : ℤ) (rate : ℚ)
    (hmax : cur ≤ cfg.maximumRPS)
    (h0 : 0 ≤ (cur : ℚ) * (cfg.rpsIncreasePercentage / 100))
    (h1 : (cur : ℚ) * (cfg.rpsIncreasePercentage / 100) < 1)
    (hr : ¬ cfg.errorThresholdPercentage < rate) :
    adjustRPS cfg cur rate = cur := by
  unfold adjustRPS
  dsimp only
  rw [if_neg hr, truncQ_eq_zero h0 h1, add_zero, if_neg (not_lt.mpr hmax)]

theorem adjustmentTimes_tick_true {cfg : AdaptiveConfig} {s s' : AdaptiveState} {now : ℤ}
    (h : adaptiveTick cfg s now = (s', true)) (es : List LoadEvent) :
    adjustmentTimes cfg s (LoadEvent.tick now :: es) = now :: adjustmentTimes cfg s' es := by
  simp [adjustmentTimes, h]

theorem adjustmentTimes_tick_false {cfg : AdaptiveConfig} {s s' : AdaptiveState} {now : ℤ}
    (h : adaptiveTick cfg s now = (s', false)) (es : List LoadEvent) :
    adjustmentTimes cfg s (LoadEvent.tick now :: es) = adjustmentTimes cfg s' es := by
  simp [adjustmentTimes, h]

theorem adjustmentTimes_chain (cfg : AdaptiveConfig) :
    ∀ (events : List LoadEvent) (s : AdaptiveState),
      List.Chain' (fun t1 t2 => cfg.stabilizationWindow ≤ t2 - t1)
        (s.lastAdaptiveChange :: adjustmentTimes cfg s events) := by
  intro events
  induction events with
  | nil => intro s; simp [adjustmentTimes]
  | cons e es ih =>
    intro s
    cases e with
    | record b =>
      have h := ih (applyRecord s b)
      rw [applyRecord_lastChange] at h
      simpa [adjustmentTimes] using h
    | tick now =>
      by_cases hs : now - s.lastSamplingTime ≥ cfg.samplingWindow
      · by_cases hstab : now - s.lastAdaptiveChange ≥ cfg.stabilizationWindow
        · have hrw : adaptiveTick cfg s now =
              ({ currentTargetRPS := adjustRPS cfg s.currentTargetRPS
                   (getRecentErrorRate s.recentSuccessfulRequests s.recentFailedRequests)
                 lastAdaptiveChange := now
                 lastSamplingTime := now
                 recentSuccessfulRequests := 0
                 recentFailedRequests := 0 }, true) := by
            unfold adaptiveTick
            rw [if_pos hs, if_pos hstab]
          rw [adjustmentTimes_tick_true hrw]
          refine List.chain'_cons.mpr ⟨hstab, ?_⟩
          exact ih { currentTargetRPS := adjustRPS cfg s.currentTargetRPS
                       (getRecentErrorRate s.recentSuccessfulRequests s.recentFailedRequests)
                     lastAdaptiveChange := now
                     lastSamplingTime := now
                     recentSuccessfulRequests := 0
                     recentFailedRequests := 0 }
        · have hrw : adaptiveTick cfg s now =
              ({ s with lastSamplingTime := now
                        recentSuccessfulRequests := 0
                        recentFailedRequests := 0 }, false) := by
            unfold adaptiveTick
            rw [if_pos hs, if_neg hstab]
          rw [adjustmentTimes_tick_false hrw]
          exact ih { s with lastSamplingTime := now
                            recentSuccessfulRequests := 0
                            recentFailedRequests := 0 }
      · have hrw : adaptiveTick cfg s now = (s, false) := by
          unfold adaptiveTick
          rw [if_neg hs]
        rw [adjustmentTimes_tick_false hrw]
        exact ih s

/-! ## Claim theorems -/

/-- C1, counterexample: the claim that a recorded outcome is a success
exactly when the status code is in the 2xx range fails on the medusa
executeTask classification: a 201 response (obtained without transport
error) is counted as a failure although 201 is in the 2xx range. -/
theorem c1_counterexample :
    executeTaskSuccess true true 201 = false ∧ (200 ≤ (201 : ℤ) ∧ (201 : ℤ) < 300) := by
  decide

/-- C1, amended: the stress_testing ExecuteRequest classifies a success
exactly for status codes in the 2xx range, while the medusa executeTask
(and the identical one in src/unnamed/part_000) requires the status code
to be exactly 200, so 2xx codes other than 200 count as failures there. -/
theorem c1_success_classification :
    (∀ statusCode : ℤ,
      stressExecuteSuccess statusCode = true ↔ 200 ≤ statusCode ∧ statusCode < 300) ∧
    (∀ (errNil respNonNil : Bool) (statusCode : ℤ),
      executeTaskSuccess errNil respNonNil statusCode = true ↔
        errNil = true ∧ respNonNil = true ∧ statusCode = 200) := by
  constructor
  · intro sc
    simp [stressExecuteSuccess]
  · intro en rn sc
    simp [executeTaskSuccess, and_assoc]

/-- C1, witness: the amended classification evaluated at status 250. -/
theorem c1_witness :
    stressExecuteSuccess 250 = true ↔ 200 ≤ (250 : ℤ) ∧ (250 : ℤ) < 300 :=
  c1_success_classification.1 250

/-- C2: a 200 response carrying a GraphQL error is recorded as a success
whenever the error report is dropped by the logging or sampling gate:
with LogErrors on and ErrorSampleRate 0.05, a draw of 0.5 records the
request as a success; only a draw inside the sample rate records it as a
failure; with LogErrors off it is always recorded as a success.  The
classification therefore depends on the error-sampling configuration and
on a random draw, contradicting the claim. -/
theorem c2_graphql_error_sampling :
    saleorRecordedSuccess ⟨true, 1/20⟩ (1/2) 200 ["boom"] = true ∧
    saleorRecordedSuccess ⟨true, 1/20⟩ (1/100) 200 ["boom"] = false ∧
    saleorRecordedSuccess ⟨false, 1/20⟩ (1/100) 200 ["boom"] = true := by
  with_unfolding_all decide

/-- C3, counterexample: with a loadable configuration whose InitialRPS
is 1000 while MaximumRPS is 500, the initial state of the adaptive loop
already has a target rate outside [minRate, maxRate], and after a
100-percent-error window the decrease step lands on 850, still above
MaximumRPS, because the decrease branch only clamps from below. -/
theorem c3_counterexample :
    ((initAdaptiveState cfgOutOfRangeInit 0).currentTargetRPS = 1000 ∧
      ¬ (initAdaptiveState cfgOutOfRangeInit 0).currentTargetRPS ≤
          cfgOutOfRangeInit.maximumRPS) ∧
    ((runEvents cfgOutOfRangeInit (initAdaptiveState cfgOutOfRangeInit 0)
        failWindowEvents).currentTargetRPS = 850 ∧
      ¬ (runEvents cfgOutOfRangeInit (initAdaptiveState cfgOutOfRangeInit 0)
          failWindowEvents).currentTargetRPS ≤ cfgOutOfRangeInit.maximumRPS) := by
  with_unfolding_all decide

/-- C3, amended: provided the configured percentages are non-negative,
0 <= minRate <= maxRate and the initial rate lies inside
[minRate, maxRate], the adaptive loop keeps currentTargetRate inside
[minRate, maxRate] through any sequence of recorded outcomes and ticks,
that is through any sequence of observed window error rates. -/
theorem c3_rate_clamping (cfg : AdaptiveConfig) (t0 : ℤ) (events : List LoadEvent)
    (hmin0 : 0 ≤ cfg.minimumRPS) (hmm : cfg.minimumRPS ≤ cfg.maximumRPS)
    (hinc : 0 ≤ cfg.rpsIncreasePercentage) (hdec : 0 ≤ cfg.rpsDecreasePercentage)
    (hinit1 : cfg.minimumRPS ≤ cfg.initialRPS) (hinit2 : cfg.initialRPS ≤ cfg.maximumRPS) :
    cfg.minimumRPS ≤ (runEvents cfg (initAdaptiveState cfg t0) events).currentTargetRPS ∧
      (runEvents cfg (initAdaptiveState cfg t0) events).currentTargetRPS ≤ cfg.maximumRPS :=
  runEvents_rate_mem cfg hmin0 hmm hinc hdec events _ hinit1 hinit2

/-- C3, witness: the clamping invariant evaluated on the shipped default
configuration across a 100-percent-error window and one adjustment. -/
theorem c3_witness :
    cfgAdaptiveDefault.minimumRPS ≤
      (runEvents cfgAdaptiveDefault (initAdaptiveState cfgAdaptiveDefault 0)
        failWindowEvents).currentTargetRPS ∧
    (runEvents cfgAdaptiveDefault (initAdaptiveState cfgAdaptiveDefault 0)
        failWindowEvents).currentTargetRPS ≤ cfgAdaptiveDefault.maximumRPS :=
  c3_rate_clamping cfgAdaptiveDefault 0 failWindowEvents (by decide) (by decide)
    (by decide) (by decide) (by decide) (by decide)

/-- C4, counterexample: in the scenario (initial 10, threshold 2, +25,
-15, minRate 5) a window where every request fails adjusts the target
rate to 9, not to 10 times 0.85 = 8.5: the code subtracts the int64
truncation of the decrease amount 1.5, so the result is 10 - 1 = 9. -/
theorem c4_counterexample :
    (runEvents (cfgScenarioDec 5) (initAdaptiveState (cfgScenarioDec 5) 0)
        failWindowEvents).currentTargetRPS = 9 ∧
    ((9 : ℚ) ≠ 10 * (85/100)) := by
  with_unfolding_all decide

/-- C4, amended: with initialRate 10, errorThresholdPercent 2,
increasePercent 25 and decreasePercent 15, a fully failing sampling
window adjusts the target rate to 10 - int64(10 * 0.15) = 9, floored to
minRate exactly when minRate exceeds 9. -/
theorem c4_decrease_scenario (minR : ℤ) :
    (runEvents (cfgScenarioDec minR) (initAdaptiveState (cfgScenarioDec minR) 0)
        failWindowEvents).currentTargetRPS = if 9 < minR then minR else 9 := by
  have hkey : (runEvents (cfgScenarioDec minR) (initAdaptiveState (cfgScenarioDec minR) 0)
      failWindowEvents).currentTargetRPS
      = (adaptiveTick (cfgScenarioDec minR) ⟨10, 0, 0, 0, 1⟩ 20000000000).1.currentTargetRPS := rfl
  rw [hkey]
  have htick : adaptiveTick (cfgScenarioDec minR) ⟨10, 0, 0, 0, 1⟩ 20000000000
      = ({ currentTargetRPS := adjustRPS (cfgScenarioDec minR) 10 (getRecentErrorRate 0 1),
           lastAdaptiveChange := 20000000000, lastSamplingTime := 20000000000,
           recentSuccessfulRequests := 0, recentFailedRequests := 0 }, true) := by
    unfold adaptiveTick
    dsimp only [cfgScenarioDec]
    rw [if_pos (by decide), if_pos (by decide)]
  rw [htick]
  dsimp only
  have hrate : getRecentErrorRate 0 1 = 100 := by with_unfolding_all decide
  rw [hrate]
  unfold adjustRPS cfgScenarioDec
  dsimp only
  rw [if_pos (by norm_num : (100 : ℚ) > 2)]
  rw [show truncQ (((10 : ℤ) : ℚ) * ((15 : ℚ) / 100)) = 1 from by with_unfolding_all decide]
  norm_num

/-- C4, witness: the amended scenario at minRate 5 and at minRate 20. -/
theorem c4_witness :
    (runEvents (cfgScenarioDec 20) (initAdaptiveState (cfgScenarioDec 20) 0)
        failWindowEvents).currentTargetRPS = if (9 : ℤ) < 20 then 20 else 9 :=
  c4_decrease_scenario 20

/-- C5: along any adaptive run, consecutive rate-adjustment instants are
separated by at least stabilizationWindow: the recorded adjustment times
form a chain under that separation, because an adjustment fires only
when now minus lastAdaptiveChange reaches the stabilization window and
it then stamps lastAdaptiveChange with now. -/
theorem c5_hysteresis (cfg : AdaptiveConfig) (t0 : ℤ) (events : List LoadEvent) :
    List.Chain' (fun t1 t2 => cfg.stabilizationWindow ≤ t2 - t1)
      (adjustmentTimes cfg (initAdaptiveState cfg t0) events) :=
  (adjustmentTimes_chain cfg events (initAdaptiveState cfg t0)).tail

/-- C5, witness: the hysteresis chain on the default configuration over
a concrete event sequence containing one adjustment. -/
theorem c5_witness :
    List.Chain' (fun t1 t2 => cfgAdaptiveDefault.stabilizationWindow ≤ t2 - t1)
      (adjustmentTimes cfgAdaptiveDefault (initAdaptiveState cfgAdaptiveDefault 0)
        failWindowEvents) :=
  c5_hysteresis cfgAdaptiveDefault 0 failWindowEvents

/-- C6, counterexample: the interpolation progress is not clamped to
[0,1].  With stages of 30 s toward 10 RPS and 10 s toward 100 RPS, the
tick that crosses the stage boundary interpolates the second stage with
the 30 s elapsed value of the first stage, giving progress 3 and a
target rate of 10 + int64(90 * 3) = 280, outside the interval between
the starting rate 10 and the stage target 100. -/
theorem c6_counterexample :
    (stagedTick stagesTwo stageZeroEnd 30000000000).map StagedState.currentTargetRPS
        = some 280 ∧
    ¬ (280 : ℤ) ≤ 100 := by
  with_unfolding_all decide

/-- C6, amended: the source applies no clamp, but whenever the elapsed
value lies in [0, duration] with positive duration, the interpolation
expression equals the starting rate at elapsed 0, equals targetRate at
elapsed = duration, and stays between the two; only the stage-boundary
tick, which reuses the elapsed value of the finished stage for the next
stage, can leave the interval. -/
theorem c6_interpolation (startRPS targetRPS duration : ℤ) (hd : 0 < duration) :
    interpolateRPS startRPS targetRPS 0 duration = startRPS ∧
    interpolateRPS startRPS targetRPS duration duration = targetRPS ∧
    (∀ elapsed : ℤ, 0 ≤ elapsed → elapsed ≤ duration →
      min startRPS targetRPS ≤ interpolateRPS startRPS targetRPS elapsed duration ∧
      interpolateRPS startRPS targetRPS elapsed duration ≤ max startRPS targetRPS) := by
  have hdQ : (0 : ℚ) < (duration : ℚ) := by exact_mod_cast hd
  refine ⟨?_, ?_, ?_⟩
  · unfold interpolateRPS
    dsimp only
    simp [truncQ_zero]
  · unfold interpolateRPS
    dsimp only
    rw [div_self (ne_of_gt hdQ), mul_one, truncQ_intCast]
    omega
  · intro e he0 he1
    unfold interpolateRPS
    dsimp only
    have hq0 : 0 ≤ (e : ℚ) / (duration : ℚ) :=
      div_nonneg (by exact_mod_cast he0) (le_of_lt hdQ)
    have hq1 : (e : ℚ) / (duration : ℚ) ≤ 1 := by
      rw [div_le_one hdQ]; exact_mod_cast he1
    rcases le_or_lt startRPS targetRPS with hst | hst
    · have hd0 : (0 : ℚ) ≤ ((targetRPS - startRPS : ℤ) : ℚ) := by
        exact_mod_cast sub_nonneg.mpr hst
      have hx0 : 0 ≤ ((targetRPS - startRPS : ℤ) : ℚ) * ((e : ℚ) / (duration : ℚ)) :=
        mul_nonneg hd0 hq0
      have hx1 : ((targetRPS - startRPS : ℤ) : ℚ) * ((e : ℚ) / (duration : ℚ))
          ≤ ((targetRPS - startRPS : ℤ) : ℚ) := mul_le_of_le_one_right hd0 hq1
      obtain ⟨hb0, hb1⟩ := truncQ_bounds_nonneg hx0 hx1
      rw [min_eq_left hst, max_eq_right hst]
      omega
    · have hd0 : ((targetRPS - startRPS : ℤ) : ℚ) ≤ 0 := by
        exact_mod_cast sub_nonpos.mpr (le_of_lt hst)
      have hx1 : ((targetRPS - startRPS : ℤ) : ℚ) * ((e : ℚ) / (duration : ℚ)) ≤ 0 :=
        mul_nonpos_iff.mpr (Or.inr ⟨hd0, hq0⟩)
      have hx0 : ((targetRPS - startRPS : ℤ) : ℚ)
          ≤ ((targetRPS - startRPS : ℤ) : ℚ) * ((e : ℚ) / (duration : ℚ)) := by
        nlinarith
      obtain ⟨hb0, hb1⟩ := truncQ_bounds_nonpos hx0 hx1
      rw [min_eq_right (le_of_lt hst), max_eq_left (le_of_lt hst)]
      omega

/-- C6, witness: the amended interpolation bounds on a ramp from 10 to
100 over 10 units of time, evaluated at elapsed 5. -/
theorem c6_witness :
    interpolateRPS 10 100 0 10 = 10 ∧ interpolateRPS 10 100 10 10 = 100 ∧
    (min 10 100 ≤ interpolateRPS 10 100 5 10 ∧ interpolateRPS 10 100 5 10 ≤ max 10 100) := by
  obtain ⟨h0, h1, h2⟩ := c6_interpolation 10 100 10 (by decide)
  exact ⟨h0, h1, h2 5 (by decide) (by decide)⟩

/-- C7, counterexample: a snapshot is not fully idempotent: with 100
requests recorded, a snapshot taken 1 s after start reports an achieved
RPS of 100 while a snapshot of the same state taken 2 s after start
reports 50, because CalculateStats divides the total by the wall-clock
elapsed time of the call. -/
theorem c7_counterexample :
    (calculateStats metricsHundred 1000000000).actualRPS
      ≠ (calculateStats metricsHundred 2000000000).actualRPS := by
  with_unfolding_all decide

/-- C7, amended: two snapshots of the same recorder state with no
intervening record call agree on all counts, on the success rate and on
every percentile; only the test-duration and achieved-RPS fields depend
on the wall-clock instant of the call. -/
theorem c7_snapshot_idempotent (m : MedusaMetrics) (t1 t2 : ℤ) :
    (calculateStats m t1).totalRequests = (calculateStats m t2).totalRequests ∧
    (calculateStats m t1).successfulRequests = (calculateStats m t2).successfulRequests ∧
    (calculateStats m t1).failedRequests = (calculateStats m t2).failedRequests ∧
    (calculateStats m t1).successRate = (calculateStats m t2).successRate ∧
    (calculateStats m t1).p50 = (calculateStats m t2).p50 ∧
    (calculateStats m t1).p90 = (calculateStats m t2).p90 ∧
    (calculateStats m t1).p95 = (calculateStats m t2).p95 ∧
    (calculateStats m t1).p99 = (calculateStats m t2).p99 :=
  ⟨rfl, rfl, rfl, rfl, rfl, rfl, rfl, rfl⟩

/-- C7, witness: the time-independent snapshot fields at two concrete
instants of the 100-request state. -/
theorem c7_witness :
    (calculateStats metricsHundred 1000000000).totalRequests
        = (calculateStats metricsHundred 2000000000).totalRequests ∧
    (calculateStats metricsHundred 1000000000).successfulRequests
        = (calculateStats metricsHundred 2000000000).successfulRequests ∧
    (calculateStats metricsHundred 1000000000).failedRequests
        = (calculateStats metricsHundred 2000000000).failedRequests ∧
    (calculateStats metricsHundred 1000000000).successRate
        = (calculateStats metricsHundred 2000000000).successRate ∧
    (calculateStats metricsHundred 1000000000).p50
        = (calculateStats metricsHundred 2000000000).p50 ∧
    (calculateStats metricsHundred 1000000000).p90
        = (calculateStats metricsHundred 2000000000).p90 ∧
    (calculateStats metricsHundred 1000000000).p95
        = (calculateStats metricsHundred 2000000000).p95 ∧
    (calculateStats metricsHundred 1000000000).p99
        = (calculateStats metricsHundred 2000000000).p99 :=
  c7_snapshot_idempotent metricsHundred 1000000000 2000000000

/-- C8, counterexample: the medusa CalculateStats does not report a 100
percent success rate for an empty recorder: with zero requests its
success rate is 0 / max(0,1) * 100 = 0 percent. -/
theorem c8_counterexample :
    (calculateStats metricsZero 1000000000).successRate = 0 ∧ (0 : ℚ) ≠ 100 := by
  with_unfolding_all decide

/-- C8, amended: with zero total requests, the stress_testing rate
getters avoid the division and report a 100 percent success rate and a 0
percent error rate, while the medusa CalculateStats avoids the division
through max(total, 1) but reports a 0 percent success rate.  (The
CalculateStats of src/unnamed/part_000 divides by the zero total
directly, a float 0/0, and reports no rate at all; float NaN is outside
this rational model.) -/
theorem c8_zero_total_rates :
    (∀ m : StressMetrics, m.totalRequests = 0 →
      getSuccessRate m = 100 ∧ getErrorRate m = 0) ∧
    (∀ (m : MedusaMetrics) (now : ℤ), m.totalRequests = 0 → m.successfulRequests = 0 →
      (calculateStats m now).successRate = 0) := by
  constructor
  · intro m h
    simp [getSuccessRate, getErrorRate, h]
  · intro m now h1 h2
    simp [calculateStats, maxI64, h1, h2]

/-- C8, witness: the zero-total rates on the freshly initialized
metrics states. -/
theorem c8_witness :
    (getSuccessRate stressZero = 100 ∧ getErrorRate stressZero = 0) ∧
    (calculateStats metricsZero 1000000000).successRate = 0 :=
  ⟨c8_zero_total_rates.1 stressZero rfl,
   c8_zero_total_rates.2 metricsZero 1000000000 rfl rfl⟩

/-- C9: truncated integer adjustment steps below one are no-ops: a
decrease whose computed amount is below 1 leaves the rate unchanged (for
rates at or above minRate), an increase whose computed amount is below 1
leaves it unchanged (for rates at or below maxRate), and with
decreasePercent 15 every rate in [0, 6] at or above minRate is a fixed
point of the decrease step for any number of fully failing windows, so
the controller can stay stuck above minRate forever. -/
theorem c9_truncation_noop :
    (∀ (cfg : AdaptiveConfig) (cur : ℤ) (rate : ℚ),
      cfg.minimumRPS ≤ cur →
      0 ≤ (cur : ℚ) * (cfg.rpsDecreasePercentage / 100) →
      (cur : ℚ) * (cfg.rpsDecreasePercentage / 100) < 1 →
      cfg.errorThresholdPercentage < rate →
      adjustRPS cfg cur rate = cur) ∧
    (∀ (cfg : AdaptiveConfig) (cur : ℤ) (rate : ℚ),
      cur ≤ cfg.maximumRPS →
      0 ≤ (cur : ℚ) * (cfg.rpsIncreasePercentage / 100) →
      (cur : ℚ) * (cfg.rpsIncreasePercentage / 100) < 1 →
      ¬ cfg.errorThresholdPercentage < rate →
      adjustRPS cfg cur rate = cur) ∧
    (∀ (cfg : AdaptiveConfig) (cur : ℤ) (rate : ℚ) (n : ℕ),
      cfg.rpsDecreasePercentage = 15 →
      cfg.minimumRPS ≤ cur → 0 ≤ cur → cur ≤ 6 →
      cfg.errorThresholdPercentage < rate →
      (fun c => adjustRPS cfg c rate)^[n] cur = cur) := by
  refine ⟨adjustRPS_noop_decrease, adjustRPS_noop_increase, ?_⟩
  intro cfg cur rate n h15 hmin h0 h6 hr
  have hc0 : (0 : ℚ) ≤ (cur : ℚ) := by exact_mod_cast h0
  have hc6 : (cur : ℚ) ≤ 6 := by exact_mod_cast h6
  have hnoop : adjustRPS cfg cur rate = cur := by
    apply adjustRPS_noop_decrease cfg cur rate hmin
    · rw [h15]
      positivity
    · rw [h15]
      nlinarith
    · exact hr
  induction n with
  | zero => rfl
  | succ k ihk => rw [Function.iterate_succ_apply, hnoop, ihk]

/-- C9, witness: with decreasePercent 15 and minRate 1, the rate 6 is a
fixed point of the decrease step at a 100 percent window error rate. -/
theorem c9_witness : adjustRPS cfgStuckLow 6 100 = 6 :=
  c9_truncation_noop.1 cfgStuckLow 6 100 (by decide)
    (by norm_num [cfgStuckLow]) (by norm_num [cfgStuckLow]) (by norm_num [cfgStuckLow])

/-- C10: when the probabilistic sampler retained no latency, the
snapshot reports all four percentiles as the zero duration: the
percentile variables keep their zero initialization because the sample
buffer is empty. -/
theorem c10_empty_percentiles (m : MedusaMetrics) (now : ℤ)
    (h : m.requestDurations = []) :
    (calculateStats m now).p50 = 0 ∧ (calculateStats m now).p90 = 0 ∧
    (calculateStats m now).p95 = 0 ∧ (calculateStats m now).p99 = 0 := by
  simp [calculateStats, h]

/-- C10, witness: the zero percentiles on the freshly initialized
metrics state, whose sample buffer is empty. -/
theorem c10_witness :
    (calculateStats metricsZero 1000000000).p50 = 0 ∧
    (calculateStats metricsZero 1000000000).p90 = 0 ∧
    (calculateStats metricsZero 1000000000).p95 = 0 ∧
    (calculateStats metricsZero 1000000000).p99 = 0 :=
  c10_empty_percentiles metricsZero 1000000000 rfl
